import Mathlib

/-!
Shallow embedding of the hunazala/POC repository (src/Zuri_POC.py and
src/agent2_poc.py) and proofs about its persistence layer
(`DatabaseManager`), its remote-assistant client (`ZuuriAssistant`)
and the message-sending flow in `main`.

Modelling conventions:
* SQLite tables are lists of rows; `CURRENT_TIMESTAMP` is an explicit
  `now : Nat` argument supplied by the caller.
* Python truthiness tests on `str`-or-`None` values (`if thread_id:`)
  are embedded as `truthy : Option String → Bool` (`None` and the empty
  string are falsy).
* The remote OpenAI API is an explicit environment record: the outcome
  of the i-th `runs.retrieve`, the i-th `submit_tool_outputs`, the
  image endpoint and the `messages.list(limit=1)` fetch are fields of
  the environment, so `send_message` becomes a pure function of the
  environment.
* `time.sleep` is not modelled; the accumulated `wait_time` counter of
  the source is kept, and each status retrieval is recorded together
  with the accumulated wait at which it happens.
-/

namespace POC

/-- Python truthiness of a `str`-or-`None` value: `None` and `""` are
falsy, every non-empty string is truthy.  Used for the `if thread_id:`
and `if title:` tests in `DatabaseManager.update_chat` and for the
`if assistant_id:` / `if not chat_details['thread_id']:` tests. -/
def truthy : Option String → Bool
  | none => false
  | some s => !(s == "")

/-- A row of the `chats` table (Zuri_POC.py lines 96-106 /
agent2_poc.py lines 123-133): `id TEXT PRIMARY KEY, user_id TEXT,
title TEXT, thread_id TEXT, created_at TIMESTAMP, updated_at
TIMESTAMP`. -/
structure Chat where
  id : String
  user_id : String
  title : String
  thread_id : Option String
  created_at : Nat
  updated_at : Nat
deriving DecidableEq, Repr

/-- `DatabaseManager.create_chat`: `INSERT INTO chats (id, user_id,
title, thread_id) VALUES (?, ?, ?, ?)`; the two timestamp columns get
their `CURRENT_TIMESTAMP` default. -/
def create_chat (chats : List Chat) (chat_id user_id title : String)
    (thread_id : Option String) (now : Nat) : List Chat :=
  chats ++ [{ id := chat_id, user_id := user_id, title := title,
              thread_id := thread_id, created_at := now, updated_at := now }]

/-- `DatabaseManager.update_chat` (Zuri_POC.py lines 156-180 /
agent2_poc.py lines 183-207): a `SET` list is built from the truthy
arguments; when it is non-empty `updated_at = CURRENT_TIMESTAMP` is
appended and a single `UPDATE ... WHERE id = ?` runs; when both
arguments are falsy no statement is executed at all. -/
def update_chat (chats : List Chat) (chat_id : String)
    (thread_id title : Option String) (now : Nat) : List Chat :=
  if truthy thread_id || truthy title then
    chats.map fun c =>
      if c.id = chat_id then
        { c with
          thread_id := if truthy thread_id then thread_id else c.thread_id,
          title := if truthy title then title.getD c.title else c.title,
          updated_at := now }
      else c
  else chats

/-- The `ORDER BY updated_at DESC` ordering of
`DatabaseManager.get_user_chats`: row `a` may come before row `b` iff
`a.updated_at ≥ b.updated_at`. -/
def updatedDesc (a b : Chat) : Prop := b.updated_at ≤ a.updated_at

instance : DecidableRel updatedDesc := fun a b => Nat.decLe b.updated_at a.updated_at

instance : IsTotal Chat updatedDesc :=
  ⟨fun a b => Nat.le_total b.updated_at a.updated_at⟩

instance : IsTrans Chat updatedDesc :=
  ⟨fun _ _ _ hab hbc => Nat.le_trans hbc hab⟩

/-- `DatabaseManager.get_user_chats`: `SELECT ... FROM chats WHERE
user_id = ? ORDER BY updated_at DESC`.  The sort is modelled by
insertion sort with the `updatedDesc` relation; SQLite leaves the
relative order of ties unspecified, and the theorems below only use
that the result is a sorted permutation of the selected rows. -/
def get_user_chats (chats : List Chat) (user_id : String) : List Chat :=
  List.insertionSort updatedDesc (chats.filter fun c => c.user_id == user_id)

/-- `DatabaseManager.get_chat_details`: `SELECT ... FROM chats WHERE id
= ?` followed by `fetchone()` — the first matching row, if any. -/
def get_chat_details (chats : List Chat) (chat_id : String) : Option Chat :=
  chats.find? fun c => c.id == chat_id

/-- A row of the `users` table: `id TEXT PRIMARY KEY, assistant_id
TEXT` (the creation timestamp is irrelevant to the claims and
omitted). -/
structure UserRow where
  id : String
  assistant_id : Option String
deriving DecidableEq, Repr

/-- `DatabaseManager.get_user_assistant`: `SELECT assistant_id FROM
users WHERE id = ?`, returning `result[0] if result else None`. -/
def get_user_assistant (users : List UserRow) (user_id : String) : Option String :=
  match users.find? (fun u => u.id == user_id) with
  | some u => u.assistant_id
  | none => none

/-- `DatabaseManager.update_user_assistant`: `UPDATE users SET
assistant_id = ? WHERE id = ?`. -/
def update_user_assistant (users : List UserRow) (user_id assistant_id : String) :
    List UserRow :=
  users.map fun u =>
    if u.id = user_id then { u with assistant_id := some assistant_id } else u

/-- Remote outcomes consumed by `ZuuriAssistant.get_or_create_assistant`:
whether `client.beta.assistants.retrieve(aid)` succeeds (any exception
counts as failure), and the outcome of `client.beta.assistants.create`
(`some newId` on success, `none` when it raises). -/
structure AssistantEnv where
  retrieveOk : String → Bool
  createResult : Option String

/-- The observable outcome of one `get_or_create_assistant` call: its
return value, the users table afterwards, and how many
`assistants.create` calls were performed. -/
structure AssistantOutcome where
  result : Option String
  users : List UserRow
  createCalls : Nat
deriving DecidableEq, Repr

/-- `ZuuriAssistant.get_or_create_assistant` (Zuri_POC.py lines 242-298
/ agent2_poc.py lines 272-437): read the cached `assistant_id`; if it
is truthy, try to retrieve it remotely and return it on success; on
any retrieval failure fall through (bare `except: pass`) to the
creation block, which on success stores and returns the new id and on
failure returns `None`. -/
def get_or_create_assistant (env : AssistantEnv) (user_id : String)
    (users : List UserRow) : AssistantOutcome :=
  let assistant_id := get_user_assistant users user_id
  if truthy assistant_id && env.retrieveOk (assistant_id.getD "") then
    { result := assistant_id, users := users, createCalls := 0 }
  else
    match env.createResult with
    | some newId =>
        { result := some newId,
          users := update_user_assistant users user_id newId,
          createCalls := 1 }
    | none => { result := none, users := users, createCalls := 1 }

/-- Run statuses of the remote Assistants API, as the strings the
source compares against. -/
inductive RunStatus where
  | queued
  | in_progress
  | requires_action
  | completed
  | failed
  | cancelled
  | expired
deriving DecidableEq, Repr

/-- Fixed reply of the `failed` branch of both `send_message`
variants. -/
def errorText : String :=
  "I encountered an error processing your request. Please try again."

/-- Fixed reply of the timeout (`else`) branch of both `send_message`
variants. -/
def timeoutText : String :=
  "Request timed out. Please try again with a shorter message."

/-- Defensive reply of the `completed` branch when `messages.data` is
empty. -/
def noResponseText : String :=
  "I apologize, but I didn\x27t receive a proper response. Could you try asking again?"

/-- Remote outcomes consumed by `ZuuriAssistant.send_message` in
Zuri_POC.py: the status of the run returned by `runs.create`, the
status returned by the i-th `runs.retrieve` (0-based), and the text of
the newest message returned by `messages.list(thread_id, limit=1)`
(`none` when `messages.data` is empty). -/
structure ZuriEnv where
  createRunStatus : RunStatus
  retrieveStatus : Nat → RunStatus
  latestText : Option String

/-- The pending statuses of the Zuri_POC.py poll loop:
`run.status in ['queued', 'in_progress']`. -/
def zuriPending (s : RunStatus) : Bool :=
  s == .queued || s == .in_progress

/-- The poll loop of `ZuuriAssistant.send_message` in Zuri_POC.py
(lines 353-363): `while run.status in ['queued', 'in_progress'] and
wait_time < max_wait: time.sleep(1); wait_time += 1; run = retrieve()`
with `max_wait = 30`.  Returns the final run status together with the
list of accumulated `wait_time` values at which each retrieval
happened.  The `fuel` argument only bounds the recursion; the source
guard `wait_time < 30` is what stops the loop (from `wait_time = 0`
at most 30 iterations run, so any `fuel > 30` gives the loop's exact
behaviour). -/
def zuriPoll (env : ZuriEnv) : Nat → RunStatus → Nat → RunStatus × List Nat
  | 0, status, _ => (status, [])
  | fuel + 1, status, wait_time =>
    if zuriPending status ∧ wait_time < 30 then
      let r := zuriPoll env fuel (env.retrieveStatus wait_time) (wait_time + 1)
      (r.1, (wait_time + 1) :: r.2)
    else (status, [])

/-- The observable outcome of `ZuuriAssistant.send_message` in
Zuri_POC.py: the returned text and the recorded retrieval waits. -/
structure ZuriReply where
  text : String
  polls : List Nat
deriving DecidableEq, Repr

/-- `ZuuriAssistant.send_message` of Zuri_POC.py (lines 337-384),
restricted to its non-raising executions: append the user message,
create the run, poll, then branch on the final status — `completed`
returns the newest message's text (or a defensive apology when the
fetch is empty), `failed` returns `errorText`, anything else returns
`timeoutText`. -/
def zuri_send_message (env : ZuriEnv) : ZuriReply :=
  let r := zuriPoll env 31 env.createRunStatus 0
  let text :=
    if r.1 = RunStatus.completed then
      match env.latestText with
      | some t => t
      | none => noResponseText
    else if r.1 = RunStatus.failed then errorText
    else timeoutText
  { text := text, polls := r.2 }

/-- A pending function call of a `requires_action` run
(`run.required_action.submit_tool_outputs.tool_calls[i]`): its id, its
`function.name`, and the fields of its JSON-decoded
`function.arguments` that the source reads (`prompt`, `style`) or
could receive from the model and ignores (`size`). -/
structure ToolCall where
  id : String
  fname : String
  argPrompt : Option String
  argStyle : Option String
  argSize : Option String
deriving DecidableEq, Repr

/-- A run object of the agent2_poc.py variant: its status and, when
`requires_action`, its pending tool calls. -/
structure Run where
  status : RunStatus
  toolCalls : List ToolCall
deriving DecidableEq, Repr

/-- The request record passed to `client.images.generate` by
`ZuuriAssistant.generate_image_with_dalle` (agent2_poc.py lines
439-457). -/
structure ImageRequest where
  model : String
  prompt : Option String
  size : String
  quality : String
  style : String
  n : Nat
deriving DecidableEq, Repr

/-- One entry of the `tool_outputs` batch submitted back to the run:
`tool_call_id` plus the JSON-encoded output object
`(image_url, size, status)` built at agent2_poc.py lines 549-556. -/
structure ToolOutput where
  tool_call_id : String
  image_url : Option String
  size : String
  status : String
deriving DecidableEq, Repr

/-- Remote outcomes consumed by `ZuuriAssistant.send_message` in
agent2_poc.py: the run returned by `runs.create`, the run returned by
the i-th `runs.retrieve`, the run returned by the i-th
`submit_tool_outputs`, the image endpoint (url of the first returned
datum, `none` on failure or empty data), and the newest message's text
from `messages.list(limit=1)`. -/
structure Agent2Env where
  createRun : Run
  retrieveRun : Nat → Run
  submitRun : Nat → Run
  imageUrl : ImageRequest → Option String
  latestText : Option String

/-- Fixed values of the agent2_poc.py `ZuuriAssistant` constructor:
`self.image_model = "dall-e-3"` and `self.image_size = "1024x1024"`. -/
def image_model : String := "dall-e-3"

/-- Fixed image size of the agent2_poc.py variant. -/
def image_size : String := "1024x1024"

/-- The request built by `generate_image_with_dalle(prompt, style)`:
`images.generate(model=self.image_model, prompt=prompt,
size=self.image_size, quality="standard", style=style, n=1)`. -/
def dalleRequest (prompt : Option String) (style : String) : ImageRequest :=
  { model := image_model, prompt := prompt, size := image_size,
    quality := "standard", style := style, n := 1 }

/-- `ZuuriAssistant.generate_image_with_dalle` (agent2_poc.py lines
439-457): call the image endpoint with the fixed size and return the
first result url, or `none` on failure. -/
def generate_image_with_dalle (env : Agent2Env) (prompt : Option String)
    (style : String) : Option String :=
  env.imageUrl (dalleRequest prompt style)

/-- Resolution of one `generate_image` tool call (agent2_poc.py lines
540-556): parse the arguments, call
`generate_image_with_dalle(args.get('prompt'),
args.get('style', 'vivid'))`, and build the output object that always
reports size `"1024x1024"` and status `success`/`failed` according to
whether a url came back. -/
def resolveToolCall (env : Agent2Env) (tc : ToolCall) : ToolOutput :=
  let url := generate_image_with_dalle env tc.argPrompt (tc.argStyle.getD "vivid")
  { tool_call_id := tc.id, image_url := url, size := "1024x1024",
    status := if url.isSome then "success" else "failed" }

/-- Observable remote interactions of one agent2_poc.py `send_message`
call, in order: a status retrieval (recorded with the accumulated
wait), an image-endpoint invocation (recorded with its request), or a
tool-output batch submission. -/
inductive Agent2Event where
  | retrieve (wait : Nat)
  | genImage (req : ImageRequest)
  | submit (outs : List ToolOutput)
deriving DecidableEq, Repr

/-- Whether an event is an image-endpoint invocation. -/
def isGenImage : Agent2Event → Bool
  | .genImage _ => true
  | _ => false

/-- Whether an event is a tool-output submission. -/
def isSubmit : Agent2Event → Bool
  | .submit _ => true
  | _ => false

/-- The `for tool_call in tool_calls:` loop (agent2_poc.py lines
539-556): calls whose `function.name` is `"generate_image"` trigger
one image-endpoint invocation and contribute one output entry; every
other call is skipped.  Returns the recorded image events and the
`tool_outputs` batch, both in loop order. -/
def processToolCalls (env : Agent2Env) :
    List ToolCall → List Agent2Event × List ToolOutput
  | [] => ([], [])
  | tc :: rest =>
    if tc.fname == "generate_image" then
      let r := processToolCalls env rest
      (.genImage (dalleRequest tc.argPrompt (tc.argStyle.getD "vivid")) :: r.1,
       resolveToolCall env tc :: r.2)
    else processToolCalls env rest

/-- The pending statuses of the agent2_poc.py poll loop:
`run.status in ['queued', 'in_progress', 'requires_action']`. -/
def agent2Pending (s : RunStatus) : Bool :=
  s == .queued || s == .in_progress || s == .requires_action

/-- The poll loop of `ZuuriAssistant.send_message` in agent2_poc.py
(lines 522-563): `while run.status in ['queued', 'in_progress',
'requires_action'] and wait_time < max_wait: time.sleep(2); wait_time
+= 2; run = retrieve(); if run.status == 'requires_action': resolve
the generate_image calls and run = submit_tool_outputs(...)` with
`max_wait = 60`.  Returns the final run and the ordered event trace.
The `fuel` argument only bounds the recursion; the source guard
`wait_time < 60` stops the loop (from `wait_time = 0` at most 30
iterations run, so any `fuel > 30` gives the loop's exact
behaviour). -/
def agent2Poll (env : Agent2Env) :
    Nat → Run → Nat → Nat → Nat → Run × List Agent2Event
  | 0, run, _, _, _ => (run, [])
  | fuel + 1, run, wait_time, ri, si =>
    if agent2Pending run.status ∧ wait_time < 60 then
      let wait' := wait_time + 2
      let run' := env.retrieveRun ri
      if run'.status = RunStatus.requires_action then
        let p := processToolCalls env run'.toolCalls
        let r := agent2Poll env fuel (env.submitRun si) wait' (ri + 1) (si + 1)
        (r.1, Agent2Event.retrieve wait' :: (p.1 ++ Agent2Event.submit p.2 :: r.2))
      else
        let r := agent2Poll env fuel run' wait' (ri + 1) si
        (r.1, Agent2Event.retrieve wait' :: r.2)
    else (run, [])

/-- The observable outcome of `ZuuriAssistant.send_message` in
agent2_poc.py: the `content` and `status` fields of the returned dict,
and the recorded remote-interaction trace. -/
structure Agent2Reply where
  content : String
  status : String
  events : List Agent2Event
deriving DecidableEq, Repr

/-- `ZuuriAssistant.send_message` of agent2_poc.py (lines 506-600),
restricted to its non-raising executions: append the user message,
create the run, poll (resolving `generate_image` tool calls on the
way), then branch on the final status exactly as the Zuri variant
does, wrapping the text in a dict with a `status` tag. -/
def agent2_send_message (env : Agent2Env) : Agent2Reply :=
  let r := agent2Poll env 31 env.createRun 0 0 0
  if r.1.status = RunStatus.completed then
    match env.latestText with
    | some t => { content := t, status := "success", events := r.2 }
    | none => { content := noResponseText, status := "error", events := r.2 }
  else if r.1.status = RunStatus.failed then
    { content := errorText, status := "error", events := r.2 }
  else
    { content := timeoutText, status := "timeout", events := r.2 }

/-- `generate_chat_title` (identical in both files): strip the first
message and truncate to 27 characters plus `"..."` when longer than 30
characters. -/
def generate_chat_title (first_message : String) : String :=
  let title := first_message.trim
  if title.length > 30 then title.take 27 ++ "..." else title

/-- Remote outcome consumed by one pass of the prompt handler:
the result of `assistant.create_thread()` (`some id`, or `none` when
it raised and returned `None`). -/
structure FlowEnv where
  createThread : Option String

/-- Outcome of one pass of the prompt handler: the chats table
afterwards and the thread id passed to `send_message` (`none` when the
handler returned early without sending). -/
structure FlowResult where
  db : List Chat
  threadUsed : Option String
deriving DecidableEq, Repr

/-- The chat-input block of `main` (Zuri_POC.py lines 651-692 /
agent2_poc.py lines 914-971), as far as it touches the chats table and
the thread id: read the chat row; when its `thread_id` is falsy create
a thread (aborting when creation fails) and store it with
`update_chat(chat_id, thread_id=...)`, otherwise reuse the stored id;
when this is the first message of the session set the title with
`update_chat(chat_id, title=generate_chat_title(prompt))`; after the
reply, call `update_chat(chat_id)` with no field arguments.
`priorMessages` is `len(st.session_state.messages)` before the user
message is appended, so the title is set when it is `0`.  A missing
chat row raises in Python; it is modelled as an early abort that
leaves the table unchanged. -/
def prompt_flow (env : FlowEnv) (db : List Chat) (chat_id prompt : String)
    (priorMessages : Nat) (now : Nat) : FlowResult :=
  match get_chat_details db chat_id with
  | none => { db := db, threadUsed := none }
  | some cd =>
    let step1 : Option (String × List Chat) :=
      if !truthy cd.thread_id then
        match env.createThread with
        | none => none
        | some t => some (t, update_chat db chat_id (some t) none now)
      else some (cd.thread_id.getD "", db)
    match step1 with
    | none => { db := db, threadUsed := none }
    | some (tid, db1) =>
      let db2 :=
        if priorMessages + 1 = 1 then
          update_chat db1 chat_id none (some (generate_chat_title prompt)) now
        else db1
      let db3 := update_chat db2 chat_id none none now
      { db := db3, threadUsed := some tid }

/-- One user interaction of the message-sending flow: the inputs of a
single `prompt_flow` pass. -/
structure FlowInput where
  env : FlowEnv
  chat_id : String
  prompt : String
  priorMessages : Nat
  now : Nat

/-- Iterated message-sending flow: the chats table after a sequence of
prompt-handler passes. -/
def flow_run (db : List Chat) : List FlowInput → List Chat
  | [] => db
  | inp :: rest =>
    flow_run (prompt_flow inp.env db inp.chat_id inp.prompt inp.priorMessages inp.now).db rest

/-- A concrete chat row used in concrete evaluations. -/
def chatEx : Chat :=
  { id := "c1", user_id := "u1", title := "hello", thread_id := none,
    created_at := 3, updated_at := 7 }

/-- Concrete inputs for the C4 witness. -/
def usersEx : List UserRow := [{ id := "u1", assistant_id := some "asst_old" }]

/-- Assistant environment in which retrieval always fails and creation
returns a fresh id. -/
def assistantEnvEx : AssistantEnv :=
  { retrieveOk := fun _ => false, createResult := some "asst_new" }

/-- Concrete Zuri environment whose run completes on the first poll. -/
def zuriEnvC : ZuriEnv :=
  { createRunStatus := RunStatus.queued,
    retrieveStatus := fun _ => RunStatus.completed,
    latestText := some "zuri done" }

/-- Concrete agent2 environment whose run completes on the first
poll. -/
def agent2EnvC : Agent2Env :=
  { createRun := { status := RunStatus.queued, toolCalls := [] },
    retrieveRun := fun _ => { status := RunStatus.completed, toolCalls := [] },
    submitRun := fun _ => { status := RunStatus.queued, toolCalls := [] },
    imageUrl := fun _ => none,
    latestText := some "agent done" }

/-- Concrete Zuri environment whose run never leaves `queued`. -/
def zuriEnvQ : ZuriEnv :=
  { createRunStatus := RunStatus.queued,
    retrieveStatus := fun _ => RunStatus.queued,
    latestText := some "never seen" }

/-- Concrete agent2 environment whose run never leaves `queued`. -/
def agent2EnvQ : Agent2Env :=
  { createRun := { status := RunStatus.queued, toolCalls := [] },
    retrieveRun := fun _ => { status := RunStatus.queued, toolCalls := [] },
    submitRun := fun _ => { status := RunStatus.queued, toolCalls := [] },
    imageUrl := fun _ => none,
    latestText := some "never seen" }

/-- Concrete `generate_image` tool call, carrying a model-supplied size
argument that the code must ignore. -/
def toolCallEx : ToolCall :=
  { id := "call_1", fname := "generate_image", argPrompt := some "a red fox",
    argStyle := some "natural", argSize := some "512x512" }

/-- Concrete agent2 environment whose first poll reports
`requires_action` with exactly `toolCallEx` pending and whose second
poll reports `completed`. -/
def agent2EnvT : Agent2Env :=
  { createRun := { status := RunStatus.queued, toolCalls := [] },
    retrieveRun := fun i =>
      if i = 0 then { status := RunStatus.requires_action, toolCalls := [toolCallEx] }
      else { status := RunStatus.completed, toolCalls := [] },
    submitRun := fun _ => { status := RunStatus.queued, toolCalls := [] },
    imageUrl := fun _ => some "https://img.example/fox.png",
    latestText := some "Here is your fox image." }

/-- Concrete chat row for the C8 witness: an old chat of user `"u"`. -/
def chatA : Chat :=
  { id := "a", user_id := "u", title := "old", thread_id := none,
    created_at := 0, updated_at := 0 }

/-- Concrete chat row with a stored thread id, for the C9 witness. -/
def chatT : Chat :=
  { id := "c1", user_id := "u1", title := "t", thread_id := some "th",
    created_at := 0, updated_at := 5 }

/-- Flow environment whose thread creation succeeds, for the C9
witness. -/
def flowEnvW : FlowEnv := { createThread := some "new_thread" }

/-- One concrete flow interaction targeting `chatT`, for the C9
witness. -/
def inpW : FlowInput :=
  { env := flowEnvW, chat_id := "c1", prompt := "hello again",
    priorMessages := 3, now := 9 }

/-! Helper lemmas shared by the claim theorems. -/

/-- Mapping a row transformer that preserves a projection preserves the
mapped projection. -/
theorem map_map_eq_of_proj {β : Type} (db : List Chat) (f : Chat → Chat) (g : Chat → β)
    (h : ∀ c, g (f c) = g c) : (db.map f).map g = db.map g := by
  induction db with
  | nil => rfl
  | cons c rest ih => simp only [List.map_cons, h, ih]

/-- Claim C10: `update_chat` tests its arguments for Python truthiness,
so an empty-string argument behaves exactly like an omitted one, and a
call in which every supplied argument is falsy performs no write at
all, leaving the whole table (including `updated_at`) unchanged. -/
theorem C10_update_chat_truthiness (db : List Chat) (chat_id : String)
    (thread_id title : Option String) (now : Nat) :
    update_chat db chat_id (some "") title now = update_chat db chat_id none title now ∧
    update_chat db chat_id thread_id (some "") now = update_chat db chat_id thread_id none now ∧
    update_chat db chat_id none none now = db ∧
    update_chat db chat_id (some "") (some "") now = db := by
  refine ⟨?_, ?_, ?_, ?_⟩ <;> simp [update_chat, truthy]

/-- Claim C2 (refuted, code bug): the spec says `update_chat` always
bumps `updated_at`, and the call site `db.update_chat(chat_id)` after
each assistant reply is commented "Update the chat's timestamp"; but
with both field arguments absent the function builds an empty `SET`
list and executes no statement, so the row — `updated_at` included —
is unchanged. -/
theorem C2_update_chat_no_bump_counterexample :
    update_chat [chatEx] "c1" none none 99 = [chatEx] ∧
    chatEx.updated_at = 7 ∧ (7 : Nat) ≠ 99 := by
  refine ⟨?_, rfl, by decide⟩
  simp [update_chat, truthy]

/-- Claim C3: `update_chat` with only a title supplied leaves
`thread_id` unchanged, with only a thread id supplied leaves `title`
unchanged, and in both cases `id`, `user_id` and `created_at` are also
unchanged, for every row of the table. -/
theorem C3_update_chat_frame (db : List Chat) (chat_id : String)
    (t tid : String) (now : Nat) :
    ((update_chat db chat_id none (some t) now).map
        (fun c => (c.id, c.user_id, c.thread_id, c.created_at))
      = db.map fun c => (c.id, c.user_id, c.thread_id, c.created_at)) ∧
    ((update_chat db chat_id (some tid) none now).map
        (fun c => (c.id, c.user_id, c.title, c.created_at))
      = db.map fun c => (c.id, c.user_id, c.title, c.created_at)) := by
  constructor
  · by_cases ht : t = ""
    · subst ht; simp [update_chat, truthy]
    · rw [update_chat]
      simp only [truthy, ht, if_neg]
      rw [if_pos (by simp [truthy, ht])]
      exact map_map_eq_of_proj db _ _ (by intro c; by_cases hc : c.id = chat_id <;> simp [hc])
  · by_cases htid : tid = ""
    · subst htid; simp [update_chat, truthy]
    · rw [update_chat]
      rw [if_pos (by simp [truthy, htid])]
      exact map_map_eq_of_proj db _ _ (by intro c; by_cases hc : c.id = chat_id <;> simp [hc, truthy])

/-- Claim C7: every `generate_image` tool call is resolved with the
fixed size `"1024x1024"`: the request sent to the image endpoint has
that size whatever the model-supplied `size` argument was, only the
`prompt` and `style` arguments are forwarded, and the tool output
always reports size `"1024x1024"`. -/
theorem C7_fixed_image_size (env : Agent2Env) (tc : ToolCall) (sz : Option String) :
    (dalleRequest tc.argPrompt (tc.argStyle.getD "vivid")).size = "1024x1024" ∧
    (dalleRequest tc.argPrompt (tc.argStyle.getD "vivid")).prompt = tc.argPrompt ∧
    (dalleRequest tc.argPrompt (tc.argStyle.getD "vivid")).style = tc.argStyle.getD "vivid" ∧
    generate_image_with_dalle env tc.argPrompt (tc.argStyle.getD "vivid")
      = env.imageUrl (dalleRequest tc.argPrompt (tc.argStyle.getD "vivid")) ∧
    resolveToolCall env { tc with argSize := sz } = resolveToolCall env tc ∧
    (resolveToolCall env tc).size = "1024x1024" :=
  ⟨rfl, rfl, rfl, rfl, rfl, rfl⟩

/-- After `update_user_assistant`, a user whose row exists reads back
the new assistant id. -/
theorem get_user_assistant_update (users : List UserRow) (uid nid : String)
    (h : (users.find? fun u => u.id == uid).isSome = true) :
    get_user_assistant (update_user_assistant users uid nid) uid = some nid := by
  induction users with
  | nil => simp [List.find?] at h
  | cons u rest ih =>
    by_cases hu : u.id = uid
    · simp [get_user_assistant, update_user_assistant, List.find?_cons, hu]
    · have hbeq : (u.id == uid) = false := by simp [hu]
      simp only [List.find?_cons, hbeq] at h
      have := ih h
      simp only [get_user_assistant, update_user_assistant, List.map_cons, if_neg hu,
        List.find?_cons, hbeq] at this ⊢
      exact this

/-- A truthy cached assistant id means the user row was found. -/
theorem cached_isSome (users : List UserRow) (uid : String)
    (h : truthy (get_user_assistant users uid) = true) :
    (users.find? fun u => u.id == uid).isSome = true := by
  unfold get_user_assistant at h
  cases hf : users.find? fun u => u.id == uid with
  | none => rw [hf] at h; simp [truthy] at h
  | some u => simp [hf]

/-- Claim C4: with a truthy cached assistant id, a successful remote
retrieval returns the cached id with no creation call, while any
retrieval failure triggers exactly one creation call; when that
creation succeeds the new id overwrites the stored one and is
returned. -/
theorem C4_assistant_recreation (env : AssistantEnv) (user_id : String)
    (users : List UserRow) (aid : String)
    (hcache : get_user_assistant users user_id = some aid) (hne : aid ≠ "") :
    (env.retrieveOk aid = true →
      get_or_create_assistant env user_id users
        = { result := some aid, users := users, createCalls := 0 }) ∧
    (env.retrieveOk aid = false →
      (get_or_create_assistant env user_id users).createCalls = 1 ∧
      ∀ newId, env.createResult = some newId →
        get_or_create_assistant env user_id users
          = { result := some newId,
              users := update_user_assistant users user_id newId,
              createCalls := 1 } ∧
        get_user_assistant (update_user_assistant users user_id newId) user_id
          = some newId) := by
  have htruthy : truthy (get_user_assistant users user_id) = true := by
    rw [hcache]; simp [truthy, hne]
  constructor
  · intro hok
    rw [get_or_create_assistant]
    rw [if_pos (by rw [hcache] at htruthy ⊢; simp [htruthy, hcache, Option.getD, hok])]
    simp [hcache]
  · intro hfail
    have hguard : (truthy (get_user_assistant users user_id)
        && env.retrieveOk ((get_user_assistant users user_id).getD "")) = false := by
      rw [hcache]; simp [Option.getD, hfail]
    constructor
    · rw [get_or_create_assistant, if_neg (by simp [hguard])]
      cases env.createResult <;> simp
    · intro newId hcr
      refine ⟨?_, get_user_assistant_update users user_id newId
        (cached_isSome users user_id htruthy)⟩
      rw [get_or_create_assistant, if_neg (by simp [hguard]), hcr]

/-- Witness for claim C4: on the concrete one-user table with a failing
retrieval, the theorem's hypotheses hold and its conclusion follows. -/
theorem C4_assistant_recreation_witness :
    get_user_assistant usersEx "u1" = some "asst_old" ∧ "asst_old" ≠ "" ∧
    ((assistantEnvEx.retrieveOk "asst_old" = true →
      get_or_create_assistant assistantEnvEx "u1" usersEx
        = { result := some "asst_old", users := usersEx, createCalls := 0 }) ∧
    (assistantEnvEx.retrieveOk "asst_old" = false →
      (get_or_create_assistant assistantEnvEx "u1" usersEx).createCalls = 1 ∧
      ∀ newId, assistantEnvEx.createResult = some newId →
        get_or_create_assistant assistantEnvEx "u1" usersEx
          = { result := some newId,
              users := update_user_assistant usersEx "u1" newId,
              createCalls := 1 } ∧
        get_user_assistant (update_user_assistant usersEx "u1" newId) "u1"
          = some newId)) :=
  ⟨rfl, by decide, C4_assistant_recreation assistantEnvEx "u1" usersEx "asst_old" rfl (by decide)⟩

/-- Claim C1: in both variants, when the newest-message fetch yields a
text, the user-visible reply is determined by the run's final status
in exactly one of three ways — `completed` returns the fetched text,
`failed` returns the fixed error string, and any other loop exit
(in particular the poll budget elapsing in a pending state) returns
the fixed timeout string. -/
theorem C1_three_outcomes (zenv : ZuriEnv) (aenv : Agent2Env) (t u : String)
    (hz : zenv.latestText = some t) (ha : aenv.latestText = some u) :
    (((zuriPoll zenv 31 zenv.createRunStatus 0).1 = RunStatus.completed ∧
        (zuri_send_message zenv).text = t) ∨
      ((zuriPoll zenv 31 zenv.createRunStatus 0).1 = RunStatus.failed ∧
        (zuri_send_message zenv).text = errorText) ∨
      ((zuriPoll zenv 31 zenv.createRunStatus 0).1 ≠ RunStatus.completed ∧
        (zuriPoll zenv 31 zenv.createRunStatus 0).1 ≠ RunStatus.failed ∧
        (zuri_send_message zenv).text = timeoutText)) ∧
    (((agent2Poll aenv 31 aenv.createRun 0 0 0).1.status = RunStatus.completed ∧
        (agent2_send_message aenv).content = u) ∨
      ((agent2Poll aenv 31 aenv.createRun 0 0 0).1.status = RunStatus.failed ∧
        (agent2_send_message aenv).content = errorText) ∨
      ((agent2Poll aenv 31 aenv.createRun 0 0 0).1.status ≠ RunStatus.completed ∧
        (agent2Poll aenv 31 aenv.createRun 0 0 0).1.status ≠ RunStatus.failed ∧
        (agent2_send_message aenv).content = timeoutText)) := by
  constructor
  · by_cases h1 : (zuriPoll zenv 31 zenv.createRunStatus 0).1 = RunStatus.completed
    · exact Or.inl ⟨h1, by simp [zuri_send_message, h1, hz]⟩
    · by_cases h2 : (zuriPoll zenv 31 zenv.createRunStatus 0).1 = RunStatus.failed
      · exact Or.inr (Or.inl ⟨h2, by simp [zuri_send_message, h1, h2]⟩)
      · exact Or.inr (Or.inr ⟨h1, h2, by simp [zuri_send_message, h1, h2]⟩)
  · by_cases h1 : (agent2Poll aenv 31 aenv.createRun 0 0 0).1.status = RunStatus.completed
    · exact Or.inl ⟨h1, by simp [agent2_send_message, h1, ha]⟩
    · by_cases h2 : (agent2Poll aenv 31 aenv.createRun 0 0 0).1.status = RunStatus.failed
      · exact Or.inr (Or.inl ⟨h2, by simp [agent2_send_message, h1, h2]⟩)
      · exact Or.inr (Or.inr ⟨h1, h2, by simp [agent2_send_message, h1, h2]⟩)

/-- Witness for claim C1: on the concrete completing environments the
hypotheses hold and the three-way case split follows. -/
theorem C1_three_outcomes_witness :
    zuriEnvC.latestText = some "zuri done" ∧
    agent2EnvC.latestText = some "agent done" ∧
    ((((zuriPoll zuriEnvC 31 zuriEnvC.createRunStatus 0).1 = RunStatus.completed ∧
        (zuri_send_message zuriEnvC).text = "zuri done") ∨
      ((zuriPoll zuriEnvC 31 zuriEnvC.createRunStatus 0).1 = RunStatus.failed ∧
        (zuri_send_message zuriEnvC).text = errorText) ∨
      ((zuriPoll zuriEnvC 31 zuriEnvC.createRunStatus 0).1 ≠ RunStatus.completed ∧
        (zuriPoll zuriEnvC 31 zuriEnvC.createRunStatus 0).1 ≠ RunStatus.failed ∧
        (zuri_send_message zuriEnvC).text = timeoutText)) ∧
    (((agent2Poll agent2EnvC 31 agent2EnvC.createRun 0 0 0).1.status = RunStatus.completed ∧
        (agent2_send_message agent2EnvC).content = "agent done") ∨
      ((agent2Poll agent2EnvC 31 agent2EnvC.createRun 0 0 0).1.status = RunStatus.failed ∧
        (agent2_send_message agent2EnvC).content = errorText) ∨
      ((agent2Poll agent2EnvC 31 agent2EnvC.createRun 0 0 0).1.status ≠ RunStatus.completed ∧
        (agent2Poll agent2EnvC 31 agent2EnvC.createRun 0 0 0).1.status ≠ RunStatus.failed ∧
        (agent2_send_message agent2EnvC).content = timeoutText))) :=
  ⟨rfl, rfl, C1_three_outcomes zuriEnvC agent2EnvC "zuri done" "agent done" rfl rfl⟩

/-- Peeling one element off a shifted `List.range` of successor
waits. -/
theorem range_map_add_shift (a k : Nat) :
    (List.range (k + 1)).map (fun i => a + 1 + i)
      = (a + 1) :: (List.range k).map fun i => a + 2 + i := by
  rw [List.range_succ_eq_map, List.map_cons, List.map_map]
  refine congrArg₂ _ (by omega) (List.map_congr_left ?_)
  intro i _
  simp only [Function.comp_apply, Nat.succ_eq_add_one]
  omega

/-- The Zuri poll loop on a run that never leaves `queued`: every
retrieval reports `queued`, so with enough fuel the loop polls at
waits `wait+1, ..., 30` and exits still `queued`. -/
theorem zuriPoll_queued (env : ZuriEnv)
    (hq : ∀ i, env.retrieveStatus i = RunStatus.queued) :
    ∀ fuel wait, 30 ≤ wait + fuel →
      zuriPoll env fuel RunStatus.queued wait
        = (RunStatus.queued, (List.range (30 - wait)).map fun i => wait + 1 + i) := by
  intro fuel
  induction fuel with
  | zero =>
    intro wait h
    have h30 : 30 - wait = 0 := by omega
    have hnot : ¬ wait < 30 := by omega
    simp [zuriPoll, h30, hnot]
  | succ f ih =>
    intro wait h
    by_cases hw : wait < 30
    · rw [zuriPoll]
      rw [if_pos (by exact ⟨by simp [zuriPending], hw⟩)]
      rw [hq wait, ih (wait + 1) (by omega)]
      have hsub : 30 - wait = (29 - wait) + 1 := by omega
      have hsub2 : 30 - (wait + 1) = 29 - wait := by omega
      rw [hsub, range_map_add_shift wait (29 - wait), hsub2]
    · have h30 : 30 - wait = 0 := by omega
      rw [zuriPoll]
      rw [if_neg (by intro hc; exact hw hc.2)]
      simp [h30]

/-- Result of a poll-loop exit that is not pending: the loop returns
immediately with no events, for any fuel. -/
theorem agent2Poll_not_pending (env : Agent2Env) (fuel : Nat) (run : Run)
    (wait ri si : Nat) (h : agent2Pending run.status = false) :
    agent2Poll env fuel run wait ri si = (run, []) := by
  cases fuel with
  | zero => rfl
  | succ f =>
    rw [agent2Poll]
    rw [if_neg (by intro hc; rw [h] at hc; exact Bool.false_ne_true hc.1)]

/-- Peeling one element off a shifted `List.range` of retrieval
events. -/
theorem range_map_retrieve_shift (a k : Nat) :
    (List.range (k + 1)).map (fun i => Agent2Event.retrieve (a + 2 * (i + 1)))
      = Agent2Event.retrieve (a + 2)
          :: (List.range k).map fun i => Agent2Event.retrieve (a + 2 + 2 * (i + 1)) := by
  rw [List.range_succ_eq_map, List.map_cons, List.map_map]
  refine congrArg₂ _ (congrArg _ (by omega)) (List.map_congr_left ?_)
  intro i _
  simp only [Function.comp_apply, Nat.succ_eq_add_one]
  exact congrArg _ (by omega)

/-- The agent2 poll loop on a run that never leaves `queued`: with
`wait + 2n = 60` and enough fuel it performs exactly `n` retrievals,
at waits `wait+2, wait+4, ..., 60`, and exits still `queued`. -/
theorem agent2Poll_queued (env : Agent2Env)
    (hq : ∀ i, (env.retrieveRun i).status = RunStatus.queued) :
    ∀ n fuel wait ri si (run : Run), run.status = RunStatus.queued →
      n ≤ fuel → wait + 2 * n = 60 →
      (agent2Poll env fuel run wait ri si).1.status = RunStatus.queued ∧
      (agent2Poll env fuel run wait ri si).2
        = (List.range n).map fun i => Agent2Event.retrieve (wait + 2 * (i + 1)) := by
  intro n
  induction n with
  | zero =>
    intro fuel wait ri si run hrun _ hwait
    have hnot : ¬ wait < 60 := by omega
    cases fuel with
    | zero => simp [agent2Poll, hrun]
    | succ f =>
      rw [agent2Poll]
      rw [if_neg (by intro hc; exact hnot hc.2)]
      simp [hrun]
  | succ m ih =>
    intro fuel wait ri si run hrun hfuel hwait
    cases fuel with
    | zero => omega
    | succ f =>
      rw [agent2Poll]
      rw [if_pos (by exact ⟨by simp [agent2Pending, hrun], by omega⟩)]
      rw [if_neg (by rw [hq ri]; intro hc; exact RunStatus.noConfusion hc)]
      dsimp only
      obtain ⟨h1, h2⟩ := ih f (wait + 2) (ri + 1) si (env.retrieveRun ri) (hq ri)
        (by omega) (by omega)
      refine ⟨h1, ?_⟩
      rw [h2, range_map_retrieve_shift]

/-- Claim C5: a run that never leaves `queued` makes the poll loop
terminate with the fixed timeout text; the Zuri variant polls 30 times
at 1-unit intervals up to the 30-unit budget, the agent2 variant polls
30 times at 2-unit intervals up to the 60-unit budget, and no
retrieval happens past the respective budget. -/
theorem C5_timeout_polling (zenv : ZuriEnv) (aenv : Agent2Env)
    (hz0 : zenv.createRunStatus = RunStatus.queued)
    (hz : ∀ i, zenv.retrieveStatus i = RunStatus.queued)
    (ha0 : aenv.createRun.status = RunStatus.queued)
    (ha : ∀ i, (aenv.retrieveRun i).status = RunStatus.queued) :
    zuri_send_message zenv
      = { text := timeoutText, polls := (List.range 30).map fun i => i + 1 } ∧
    (zuri_send_message zenv).polls.length = 30 ∧
    (∀ w ∈ (zuri_send_message zenv).polls, w ≤ 30) ∧
    (agent2_send_message aenv).content = timeoutText ∧
    (agent2_send_message aenv).status = "timeout" ∧
    (agent2_send_message aenv).events
      = (List.range 30).map (fun i => Agent2Event.retrieve (2 * (i + 1))) ∧
    (∀ w, Agent2Event.retrieve w ∈ (agent2_send_message aenv).events → w ≤ 60) := by
  have hzpoll : zuriPoll zenv 31 zenv.createRunStatus 0
      = (RunStatus.queued, (List.range 30).map fun i => i + 1) := by
    rw [hz0, zuriPoll_queued zenv hz 31 0 (by omega)]
    simp only [Nat.sub_zero]
    exact congrArg _ (List.map_congr_left fun i _ => by omega)
  have hzmsg : zuri_send_message zenv
      = { text := timeoutText, polls := (List.range 30).map fun i => i + 1 } := by
    simp [zuri_send_message, hzpoll]
  obtain ⟨hast, haev⟩ := agent2Poll_queued aenv ha 30 31 0 0 0 aenv.createRun ha0
    (by omega) (by omega)
  have hane1 : (agent2Poll aenv 31 aenv.createRun 0 0 0).1.status ≠ RunStatus.completed := by
    rw [hast]; decide
  have hane2 : (agent2Poll aenv 31 aenv.createRun 0 0 0).1.status ≠ RunStatus.failed := by
    rw [hast]; decide
  have haev' : (agent2Poll aenv 31 aenv.createRun 0 0 0).2
      = (List.range 30).map fun i => Agent2Event.retrieve (2 * (i + 1)) := by
    rw [haev]
    exact List.map_congr_left fun i _ => congrArg _ (by omega)
  have hamsg : agent2_send_message aenv
      = { content := timeoutText, status := "timeout",
          events := (List.range 30).map fun i => Agent2Event.retrieve (2 * (i + 1)) } := by
    simp [agent2_send_message, hane1, hane2, haev']
  refine ⟨hzmsg, by rw [hzmsg]; simp, ?_, by rw [hamsg], by rw [hamsg], by rw [hamsg], ?_⟩
  · intro w hw
    rw [hzmsg] at hw
    simp only [List.mem_map, List.mem_range] at hw
    obtain ⟨i, hi, rfl⟩ := hw
    omega
  · intro w hw
    have hev : (agent2_send_message aenv).events
        = (List.range 30).map fun i => Agent2Event.retrieve (2 * (i + 1)) := by
      rw [hamsg]
    rw [hev] at hw
    simp only [List.mem_map, List.mem_range] at hw
    obtain ⟨i, hi, hww⟩ := hw
    injection hww with h
    omega

/-- Witness for claim C5: on the concrete never-completing
environments, the theorem applies and yields the timeout replies. -/
theorem C5_timeout_polling_witness :
    zuri_send_message zuriEnvQ
      = { text := timeoutText, polls := (List.range 30).map fun i => i + 1 } ∧
    (agent2_send_message agent2EnvQ).content = timeoutText ∧
    (agent2_send_message agent2EnvQ).status = "timeout" := by
  have h := C5_timeout_polling zuriEnvQ agent2EnvQ rfl (fun _ => rfl) rfl (fun _ => rfl)
  exact ⟨h.1, h.2.2.2.1, h.2.2.2.2.1⟩

/-- The agent2 poll loop on the claim C6 scenario: `k` queued polls,
then a `requires_action` run carrying exactly one `generate_image`
call, then (after the tool-output submission returns a queued run) a
completed run.  The loop resolves the call with exactly one image
invocation and one submission, then polls once more and exits
completed. -/
theorem agent2Poll_image_scenario (env : Agent2Env) (tc : ToolCall) (si : Nat)
    (htc : tc.fname = "generate_image")
    (hsub : (env.submitRun si).status = RunStatus.queued) :
    ∀ k fuel wait ri (run : Run),
      run.status = RunStatus.queued →
      (∀ i, i < k → (env.retrieveRun (ri + i)).status = RunStatus.queued) →
      env.retrieveRun (ri + k)
        = { status := RunStatus.requires_action, toolCalls := [tc] } →
      env.retrieveRun (ri + k + 1)
        = { status := RunStatus.completed, toolCalls := [] } →
      k + 2 ≤ fuel →
      wait + 2 * k + 4 ≤ 60 →
      agent2Poll env fuel run wait ri si
        = ({ status := RunStatus.completed, toolCalls := [] },
           ((List.range (k + 1)).map fun i => Agent2Event.retrieve (wait + 2 * (i + 1)))
             ++ [Agent2Event.genImage (dalleRequest tc.argPrompt (tc.argStyle.getD "vivid")),
                 Agent2Event.submit [resolveToolCall env tc],
                 Agent2Event.retrieve (wait + 2 * k + 4)]) := by
  intro k
  induction k with
  | zero =>
    intro fuel wait ri run hrun _ hra hdone hfuel hwait
    rw [Nat.add_zero] at hra
    match fuel, hfuel with
    | f + 2, _ =>
      rw [agent2Poll]
      rw [if_pos (by exact ⟨by simp [agent2Pending, hrun], by omega⟩)]
      rw [hra]
      rw [if_pos rfl]
      dsimp only
      rw [agent2Poll]
      rw [if_pos (by exact ⟨by simp [agent2Pending, hsub], by omega⟩)]
      have hidx : ri + 1 = ri + 0 + 1 := by omega
      rw [← hidx] at hdone
      rw [hdone]
      rw [if_neg (by intro hc; exact RunStatus.noConfusion hc)]
      dsimp only
      rw [agent2Poll_not_pending env f { status := RunStatus.completed, toolCalls := [] }
        (wait + 2 + 2) (ri + 1 + 1) (si + 1) (by simp [agent2Pending])]
      simp only [processToolCalls, htc]
      simp [resolveToolCall, List.range_succ]
  | succ m ih =>
    intro fuel wait ri run hrun hq hra hdone hfuel hwait
    match fuel, hfuel with
    | f + 1, _ =>
      rw [agent2Poll]
      rw [if_pos (by exact ⟨by simp [agent2Pending, hrun], by omega⟩)]
      have hq0 : (env.retrieveRun ri).status = RunStatus.queued := by
        have := hq 0 (by omega)
        rwa [Nat.add_zero] at this
      rw [if_neg (by rw [hq0]; intro hc; exact RunStatus.noConfusion hc)]
      dsimp only
      rw [ih f (wait + 2) (ri + 1) (env.retrieveRun ri) hq0
        (by intro i hi
            have := hq (i + 1) (by omega)
            rwa [show ri + (i + 1) = ri + 1 + i by omega] at this)
        (by rwa [show ri + 1 + m = ri + (m + 1) by omega])
        (by rwa [show ri + 1 + m + 1 = ri + (m + 1) + 1 by omega])
        (by omega) (by omega)]
      rw [show Agent2Event.retrieve (wait + 2)
            :: (((List.range (m + 1)).map fun i => Agent2Event.retrieve (wait + 2 + 2 * (i + 1)))
              ++ [Agent2Event.genImage (dalleRequest tc.argPrompt (tc.argStyle.getD "vivid")),
                  Agent2Event.submit [resolveToolCall env tc],
                  Agent2Event.retrieve (wait + 2 + 2 * m + 4)])
          = (Agent2Event.retrieve (wait + 2)
              :: ((List.range (m + 1)).map fun i => Agent2Event.retrieve (wait + 2 + 2 * (i + 1))))
            ++ [Agent2Event.genImage (dalleRequest tc.argPrompt (tc.argStyle.getD "vivid")),
                Agent2Event.submit [resolveToolCall env tc],
                Agent2Event.retrieve (wait + 2 + 2 * m + 4)] from rfl]
      rw [← range_map_retrieve_shift wait (m + 1)]
      refine congrArg _ (congrArg _ (congrArg₂ _ rfl ?_))
      exact congrArg₂ _ rfl (by rw [show wait + 2 + 2 * m + 4 = wait + 2 * (m + 1) + 4 by omega])

/-- Claim C6: in the tool-enabled variant, a run that reports
`requires_action` (after `k` queued polls) with exactly one pending
`generate_image` call makes `send_message` perform exactly one
image-generation call and exactly one tool-output submission carrying
that call's output before resuming polling, and when the run then
reports `completed` the latest assistant text is returned. -/
theorem C6_tool_resolution (env : Agent2Env) (tc : ToolCall) (k : Nat) (txt : String)
    (hstart : env.createRun.status = RunStatus.queued)
    (hq : ∀ i, i < k → (env.retrieveRun i).status = RunStatus.queued)
    (hra : env.retrieveRun k = { status := RunStatus.requires_action, toolCalls := [tc] })
    (htc : tc.fname = "generate_image")
    (hsub : (env.submitRun 0).status = RunStatus.queued)
    (hdone : env.retrieveRun (k + 1) = { status := RunStatus.completed, toolCalls := [] })
    (htxt : env.latestText = some txt)
    (hk : k ≤ 28) :
    agent2_send_message env
      = { content := txt, status := "success",
          events := ((List.range (k + 1)).map fun i => Agent2Event.retrieve (2 * (i + 1)))
            ++ [Agent2Event.genImage (dalleRequest tc.argPrompt (tc.argStyle.getD "vivid")),
                Agent2Event.submit [resolveToolCall env tc],
                Agent2Event.retrieve (2 * k + 4)] } ∧
    (agent2_send_message env).events.filter isGenImage
      = [Agent2Event.genImage (dalleRequest tc.argPrompt (tc.argStyle.getD "vivid"))] ∧
    (agent2_send_message env).events.filter isSubmit
      = [Agent2Event.submit [resolveToolCall env tc]] := by
  have hpoll := agent2Poll_image_scenario env tc 0 htc hsub k 31 0 0 env.createRun hstart
    (by intro i hi; rw [Nat.zero_add]; exact hq i hi)
    (by rw [Nat.zero_add]; exact hra)
    (by rw [Nat.zero_add]; exact hdone)
    (by omega) (by omega)
  have hpoll' : agent2Poll env 31 env.createRun 0 0 0
      = ({ status := RunStatus.completed, toolCalls := [] },
         ((List.range (k + 1)).map fun i => Agent2Event.retrieve (2 * (i + 1)))
           ++ [Agent2Event.genImage (dalleRequest tc.argPrompt (tc.argStyle.getD "vivid")),
               Agent2Event.submit [resolveToolCall env tc],
               Agent2Event.retrieve (2 * k + 4)]) := by
    rw [hpoll]
    refine congrArg _ ?_
    refine congrArg₂ _ (List.map_congr_left fun i _ => congrArg _ (by omega)) ?_
    rw [show 0 + 2 * k + 4 = 2 * k + 4 by omega]
  have hmsg : agent2_send_message env
      = { content := txt, status := "success",
          events := ((List.range (k + 1)).map fun i => Agent2Event.retrieve (2 * (i + 1)))
            ++ [Agent2Event.genImage (dalleRequest tc.argPrompt (tc.argStyle.getD "vivid")),
                Agent2Event.submit [resolveToolCall env tc],
                Agent2Event.retrieve (2 * k + 4)] } := by
    rw [agent2_send_message, hpoll']
    simp [htxt]
  have hretrieves : ∀ p : Agent2Event → Bool, (∀ w, p (Agent2Event.retrieve w) = false) →
      ((List.range (k + 1)).map fun i => Agent2Event.retrieve (2 * (i + 1))).filter p = [] := by
    intro p hp
    rw [List.filter_eq_nil_iff]
    intro a ha
    simp only [List.mem_map] at ha
    obtain ⟨i, _, rfl⟩ := ha
    simp [hp]
  refine ⟨hmsg, ?_, ?_⟩
  · rw [hmsg]
    dsimp only
    rw [List.filter_append, hretrieves isGenImage fun _ => rfl]
    simp [isGenImage, isSubmit]
  · rw [hmsg]
    dsimp only
    rw [List.filter_append, hretrieves isSubmit fun _ => rfl]
    simp [isGenImage, isSubmit]

/-- Witness for claim C6: on the concrete `requires_action` environment
(`k = 0`) the theorem applies: one image call, one submission, then
the completed text. -/
theorem C6_tool_resolution_witness :
    agent2_send_message agent2EnvT
      = { content := "Here is your fox image.", status := "success",
          events := ((List.range 1).map fun i => Agent2Event.retrieve (2 * (i + 1)))
            ++ [Agent2Event.genImage
                  (dalleRequest toolCallEx.argPrompt (toolCallEx.argStyle.getD "vivid")),
                Agent2Event.submit [resolveToolCall agent2EnvT toolCallEx],
                Agent2Event.retrieve 4] } ∧
    (agent2_send_message agent2EnvT).events.filter isGenImage
      = [Agent2Event.genImage
          (dalleRequest toolCallEx.argPrompt (toolCallEx.argStyle.getD "vivid"))] ∧
    (agent2_send_message agent2EnvT).events.filter isSubmit
      = [Agent2Event.submit [resolveToolCall agent2EnvT toolCallEx]] :=
  C6_tool_resolution agent2EnvT toolCallEx 0 "Here is your fox image." rfl
    (fun i hi => absurd hi (Nat.not_lt_zero i)) rfl rfl rfl rfl rfl (by omega)

/-- Claim C8: `get_user_chats` returns exactly the user's chats (a
permutation of the `user_id` selection) sorted by `updated_at`
descending; and after creating a new chat and then updating an older
chat at a strictly later time, the updated older chat is first in the
returned list. -/
theorem C8_chats_ordering (db : List Chat) (uid : String) :
    List.Perm (get_user_chats db uid) (db.filter fun c => c.user_id == uid) ∧
    List.Sorted updatedDesc (get_user_chats db uid) ∧
    (∀ (cid cidNew titleNew newTitle : String) (t2 t3 : Nat) (A : Chat),
      A ∈ db → A.id = cid → A.user_id = uid → newTitle ≠ "" → t2 < t3 →
      (∀ c ∈ db, c.user_id = uid → c.id ≠ cid → c.updated_at < t3) →
      ∃ c, (get_user_chats
              (update_chat (create_chat db cidNew uid titleNew none t2)
                cid none (some newTitle) t3) uid).head? = some c
        ∧ c.id = cid ∧ c.updated_at = t3) := by
  refine ⟨List.perm_insertionSort _ _, List.sorted_insertionSort _ _, ?_⟩
  intro cid cidNew titleNew newTitle t2 t3 A hA hAid hAuid hnt ht23 hmax
  have hguard : (truthy none || truthy (some newTitle)) = true := by
    simp [truthy, hnt]
  have hdb2 : update_chat (create_chat db cidNew uid titleNew none t2) cid none
        (some newTitle) t3
      = (create_chat db cidNew uid titleNew none t2).map fun c =>
          if c.id = cid then
            { c with
              thread_id := if truthy none then none else c.thread_id,
              title := if truthy (some newTitle) then (some newTitle).getD c.title
                       else c.title,
              updated_at := t3 }
          else c := by
    rw [update_chat, if_pos hguard]
  have hBmem : ({ A with title := newTitle, updated_at := t3 } : Chat)
      ∈ update_chat (create_chat db cidNew uid titleNew none t2) cid none
          (some newTitle) t3 := by
    rw [hdb2]
    refine List.mem_map.2 ⟨A, ?_, ?_⟩
    · exact List.mem_append_left _ hA
    · rw [if_pos hAid]
      simp [truthy, hnt]
  have hBL : ({ A with title := newTitle, updated_at := t3 } : Chat)
      ∈ get_user_chats (update_chat (create_chat db cidNew uid titleNew none t2)
          cid none (some newTitle) t3) uid := by
    rw [get_user_chats, List.mem_insertionSort]
    refine List.mem_filter.2 ⟨hBmem, ?_⟩
    show (A.user_id == uid) = true
    simp [hAuid]
  cases hLc : get_user_chats (update_chat (create_chat db cidNew uid titleNew none t2)
      cid none (some newTitle) t3) uid with
  | nil => rw [hLc] at hBL; exact absurd hBL (List.not_mem_nil _)
  | cons c rest =>
    have hsorted : List.Sorted updatedDesc (c :: rest) := by
      rw [← hLc]; exact List.sorted_insertionSort _ _
    rw [hLc] at hBL
    have hct3 : t3 ≤ c.updated_at := by
      rcases List.mem_cons.1 hBL with hBc | hBrest
      · have h3 : t3 = c.updated_at := by rw [← hBc]
        omega
      · exact (List.sorted_cons.1 hsorted).1 _ hBrest
    have hcL : c ∈ get_user_chats (update_chat (create_chat db cidNew uid titleNew
        none t2) cid none (some newTitle) t3) uid := by
      rw [hLc]; exact List.mem_cons_self c rest
    rw [get_user_chats, List.mem_insertionSort] at hcL
    obtain ⟨hcdb2, hcuid⟩ := List.mem_filter.1 hcL
    rw [hdb2] at hcdb2
    obtain ⟨a, hadb1, hfa⟩ := List.mem_map.1 hcdb2
    by_cases haid : a.id = cid
    · rw [if_pos haid] at hfa
      refine ⟨c, rfl, ?_, ?_⟩
      · rw [← hfa]; exact haid
      · rw [← hfa]
    · rw [if_neg haid] at hfa
      exfalso
      have hauid : a.user_id = uid := by
        rw [hfa]
        simpa using hcuid
      have haup : t3 ≤ a.updated_at := by rw [hfa]; exact hct3
      rcases List.mem_append.1 hadb1 with hadb | hanew
      · have := hmax a hadb hauid haid
        omega
      · have ha2 : a.updated_at = t2 := by
          rw [List.mem_singleton.1 hanew]
        omega

/-- Witness for claim C8: on a one-chat table, creating chat `"b"` at
time 1 and renaming chat `"a"` at time 2 puts chat `"a"` first. -/
theorem C8_chats_ordering_witness :
    List.Perm (get_user_chats [chatA] "u") ([chatA].filter fun c => c.user_id == "u") ∧
    List.Sorted updatedDesc (get_user_chats [chatA] "u") ∧
    (∃ c, (get_user_chats
            (update_chat (create_chat [chatA] "b" "u" "new chat" none 1)
              "a" none (some "renamed") 2) "u").head? = some c
      ∧ c.id = "a" ∧ c.updated_at = 2) := by
  have h := C8_chats_ordering [chatA] "u"
  exact ⟨h.1, h.2.1, h.2.2 "a" "b" "new chat" "renamed" 1 2 chatA
    (List.mem_singleton.2 rfl) rfl rfl (by decide) (by decide) (by decide)⟩

/-- A `find?` over a mapped list whose transformer preserves the
predicate and fixes every matching element is the plain `find?`. -/
theorem find_map_untouched (db : List Chat) (f : Chat → Chat) (p : Chat → Bool)
    (hp : ∀ c, p (f c) = p c) (hfix : ∀ c, p c = true → f c = c) :
    (db.map f).find? p = db.find? p := by
  induction db with
  | nil => rfl
  | cons c rest ih =>
    rw [List.map_cons, List.find?_cons, List.find?_cons]
    by_cases h : p c = true
    · simp only [hp c, h, hfix c h]
    · have hf : p c = false := by simpa using h
      simp only [hp c, hf, ih]

/-- A `find?` over a mapped list whose transformer preserves the
predicate and a projection has the same projected result. -/
theorem find_map_proj {β : Type} (db : List Chat) (f : Chat → Chat) (p : Chat → Bool)
    (g : Chat → β) (hp : ∀ c, p (f c) = p c) (hg : ∀ c, g (f c) = g c) :
    ((db.map f).find? p).map g = (db.find? p).map g := by
  induction db with
  | nil => rfl
  | cons c rest ih =>
    rw [List.map_cons, List.find?_cons, List.find?_cons]
    by_cases h : p c = true
    · simp only [hp c, h, Option.map_some']
      rw [hg c]
    · have hf : p c = false := by simpa using h
      simp only [hp c, hf, ih]

/-- A `find?` over a mapped list that hits writes the new projected
value, provided the plain `find?` hits. -/
theorem find_map_proj_hit {β : Type} (db : List Chat) (f : Chat → Chat) (p : Chat → Bool)
    (g : Chat → β) (b : β)
    (hp : ∀ c, p (f c) = p c) (hg : ∀ c, p c = true → g (f c) = b) :
    ∀ cd, db.find? p = some cd → ((db.map f).find? p).map g = some b := by
  induction db with
  | nil =>
    intro cd h
    simp [List.find?] at h
  | cons c rest ih =>
    intro cd h
    rw [List.map_cons, List.find?_cons]
    rw [List.find?_cons] at h
    by_cases hc : p c = true
    · simp only [hp c, hc, Option.map_some']
      rw [hg c hc]
    · have hf : p c = false := by simpa using hc
      simp only [hf] at h
      simp only [hp c, hf]
      exact ih cd h

/-- `update_chat` with no thread argument leaves the `thread_id` seen
through `get_chat_details` unchanged, for every queried id. -/
theorem gcd_update_no_thread (db : List Chat) (cid cid2 : String)
    (ttl : Option String) (now : Nat) :
    (get_chat_details (update_chat db cid none ttl now) cid2).map Chat.thread_id
      = (get_chat_details db cid2).map Chat.thread_id := by
  rw [update_chat]
  by_cases hg : (truthy none || truthy ttl) = true
  · rw [if_pos hg, get_chat_details, get_chat_details]
    exact find_map_proj db _ _ Chat.thread_id
      (by intro c; by_cases h : c.id = cid <;> simp [h])
      (by intro c; by_cases h : c.id = cid <;> simp [h, truthy])
  · rw [if_neg hg]

/-- `update_chat` targeting a different id leaves `get_chat_details`
at the queried id entirely unchanged. -/
theorem gcd_update_other (db : List Chat) (cid cid2 : String)
    (tid ttl : Option String) (now : Nat) (hne : cid2 ≠ cid) :
    get_chat_details (update_chat db cid tid ttl now) cid2 = get_chat_details db cid2 := by
  rw [update_chat]
  by_cases hg : (truthy tid || truthy ttl) = true
  · rw [if_pos hg, get_chat_details, get_chat_details]
    refine find_map_untouched db _ _
      (by intro c; by_cases h : c.id = cid <;> simp [h]) ?_
    intro c hc
    have hcc : c.id = cid2 := by simpa using hc
    rw [if_neg (by rw [hcc]; exact hne)]
  · rw [if_neg hg]

/-- `update_chat` that stores a non-empty thread id on an existing row
makes `get_chat_details` at that id see the new thread id. -/
theorem gcd_update_set_thread (db : List Chat) (cid t : String) (now : Nat)
    (cd : Chat) (hfound : get_chat_details db cid = some cd) (ht : t ≠ "") :
    (get_chat_details (update_chat db cid (some t) none now) cid).map Chat.thread_id
      = some (some t) := by
  rw [update_chat, if_pos (by simp [truthy, ht])]
  rw [get_chat_details] at hfound ⊢
  refine find_map_proj_hit db _ _ Chat.thread_id (some t)
    (by intro c; by_cases h : c.id = cid <;> simp [h]) ?_ cd hfound
  intro c hc
  have hcc : c.id = cid := by simpa using hc
  rw [if_pos hcc]
  simp [truthy, ht]

/-- Table produced by a prompt-handler pass whose chat already has a
truthy thread id: only the title (on the first message) could be
written; both writes pass no thread argument. -/
theorem prompt_flow_db_reuse (env : FlowEnv) (db : List Chat) (cid prompt : String)
    (m now : Nat) (cd : Chat) (h : get_chat_details db cid = some cd)
    (ht : truthy cd.thread_id = true) :
    (prompt_flow env db cid prompt m now).db
      = update_chat
          (if m + 1 = 1 then
            update_chat db cid none (some (generate_chat_title prompt)) now
          else db) cid none none now ∧
    (prompt_flow env db cid prompt m now).threadUsed
      = some (cd.thread_id.getD "") := by
  constructor <;> by_cases hm : m + 1 = 1 <;> simp [prompt_flow, h, ht, hm]

/-- Table produced by a prompt-handler pass whose chat has a falsy
thread id and whose thread creation succeeds. -/
theorem prompt_flow_db_lazy (env : FlowEnv) (db : List Chat) (cid prompt : String)
    (m now : Nat) (cd : Chat) (t : String) (h : get_chat_details db cid = some cd)
    (ht : truthy cd.thread_id = false) (hct : env.createThread = some t) :
    (prompt_flow env db cid prompt m now).db
      = update_chat
          (if m + 1 = 1 then
            update_chat (update_chat db cid (some t) none now) cid none
              (some (generate_chat_title prompt)) now
          else update_chat db cid (some t) none now) cid none none now ∧
    (prompt_flow env db cid prompt m now).threadUsed = some t := by
  constructor <;> by_cases hm : m + 1 = 1 <;> simp [prompt_flow, h, ht, hct, hm]

/-- A prompt-handler pass on a missing chat row aborts with the table
unchanged. -/
theorem prompt_flow_abort_missing (env : FlowEnv) (db : List Chat)
    (cid prompt : String) (m now : Nat) (h : get_chat_details db cid = none) :
    prompt_flow env db cid prompt m now = { db := db, threadUsed := none } := by
  simp [prompt_flow, h]

/-- A prompt-handler pass whose thread creation fails aborts with the
table unchanged. -/
theorem prompt_flow_abort_create (env : FlowEnv) (db : List Chat)
    (cid prompt : String) (m now : Nat) (cd : Chat)
    (h : get_chat_details db cid = some cd) (ht : truthy cd.thread_id = false)
    (hct : env.createThread = none) :
    prompt_flow env db cid prompt m now = { db := db, threadUsed := none } := by
  simp [prompt_flow, h, ht, hct]

/-- One prompt-handler pass, whatever chat it targets, preserves the
`thread_id` that `get_chat_details` sees for a chat whose thread id is
already truthy. -/
theorem prompt_flow_preserves_thread (env : FlowEnv) (db : List Chat)
    (tgt prompt : String) (m now : Nat) (cid : String) (cd : Chat)
    (h : get_chat_details db cid = some cd) (ht : truthy cd.thread_id = true) :
    (get_chat_details (prompt_flow env db tgt prompt m now).db cid).map Chat.thread_id
      = (get_chat_details db cid).map Chat.thread_id := by
  cases hscrut : get_chat_details db tgt with
  | none => rw [prompt_flow_abort_missing env db tgt prompt m now hscrut]
  | some e =>
    by_cases hte : truthy e.thread_id = true
    · rw [(prompt_flow_db_reuse env db tgt prompt m now e hscrut hte).1]
      rw [gcd_update_no_thread]
      by_cases hm : m + 1 = 1
      · rw [if_pos hm, gcd_update_no_thread]
      · rw [if_neg hm]
    · have hte' : truthy e.thread_id = false := by simpa using hte
      cases hct : env.createThread with
      | none => rw [prompt_flow_abort_create env db tgt prompt m now e hscrut hte' hct]
      | some t =>
        have hne : cid ≠ tgt := by
          intro hcc
          rw [hcc, hscrut] at h
          have : cd = e := by injection h with h'; exact h'.symm
          rw [this, hte'] at ht
          exact Bool.false_ne_true ht
        rw [(prompt_flow_db_lazy env db tgt prompt m now e t hscrut hte' hct).1]
        rw [gcd_update_no_thread]
        by_cases hm : m + 1 = 1
        · rw [if_pos hm, gcd_update_no_thread,
            gcd_update_other db tgt cid (some t) none now hne]
        · rw [if_neg hm, gcd_update_other db tgt cid (some t) none now hne]

/-- Iterating the message-sending flow preserves a truthy `thread_id`:
once set, no pass of the flow ever changes it. -/
theorem flow_run_thread_invariant (inps : List FlowInput) :
    ∀ (db : List Chat) (cid : String) (cd : Chat),
      get_chat_details db cid = some cd → truthy cd.thread_id = true →
      ∃ cd', get_chat_details (flow_run db inps) cid = some cd'
        ∧ cd'.thread_id = cd.thread_id := by
  induction inps with
  | nil => intro db cid cd h _; exact ⟨cd, h, rfl⟩
  | cons inp rest ih =>
    intro db cid cd h ht
    have hproj := prompt_flow_preserves_thread inp.env db inp.chat_id inp.prompt
      inp.priorMessages inp.now cid cd h ht
    rw [h, Option.map_some'] at hproj
    cases hg : get_chat_details (prompt_flow inp.env db inp.chat_id inp.prompt
        inp.priorMessages inp.now).db cid with
    | none => rw [hg] at hproj; exact absurd hproj (by simp)
    | some cd1 =>
      rw [hg, Option.map_some'] at hproj
      have hth1 : cd1.thread_id = cd.thread_id := by injection hproj with h'
      obtain ⟨cd', hg', hth'⟩ := ih _ cid cd1 hg (by rw [hth1]; exact ht)
      exact ⟨cd', hg', by rw [hth', hth1]⟩

/-- Claim C9: in the message-sending flow, once a chat's stored
`thread_id` is truthy it is passed unchanged to `send_message` and no
pass of the flow (over any sequence of interactions) ever changes it;
and when it is falsy, the thread is created and its id stored and
used. -/
theorem C9_thread_id_stable (env : FlowEnv) (db : List Chat) (cid prompt : String)
    (m now : Nat) (cd : Chat) (inps : List FlowInput)
    (h : get_chat_details db cid = some cd) :
    (truthy cd.thread_id = true →
      (prompt_flow env db cid prompt m now).threadUsed = some (cd.thread_id.getD "") ∧
      ∃ cd', get_chat_details (flow_run db inps) cid = some cd'
        ∧ cd'.thread_id = cd.thread_id) ∧
    (truthy cd.thread_id = false → ∀ t, env.createThread = some t → t ≠ "" →
      (prompt_flow env db cid prompt m now).threadUsed = some t ∧
      (get_chat_details (prompt_flow env db cid prompt m now).db cid).map Chat.thread_id
        = some (some t)) := by
  constructor
  · intro ht
    exact ⟨(prompt_flow_db_reuse env db cid prompt m now cd h ht).2,
      flow_run_thread_invariant inps db cid cd h ht⟩
  · intro ht t hct htne
    obtain ⟨hdb, hused⟩ := prompt_flow_db_lazy env db cid prompt m now cd t h ht hct
    refine ⟨hused, ?_⟩
    rw [hdb, gcd_update_no_thread]
    by_cases hm : m + 1 = 1
    · rw [if_pos hm, gcd_update_no_thread]
      exact gcd_update_set_thread db cid t now cd h htne
    · rw [if_neg hm]
      exact gcd_update_set_thread db cid t now cd h htne

/-- Witness for claim C9: on a one-chat table whose chat already has
thread `"th"`, the pass reuses `"th"` and a further interaction leaves
the stored thread id unchanged. -/
theorem C9_thread_id_stable_witness :
    get_chat_details [chatT] "c1" = some chatT ∧
    truthy chatT.thread_id = true ∧
    (prompt_flow flowEnvW [chatT] "c1" "hello" 0 9).threadUsed = some "th" ∧
    (get_chat_details (flow_run [chatT] [inpW]) "c1").map Chat.thread_id
      = some (some "th") := by
  have h := (C9_thread_id_stable flowEnvW [chatT] "c1" "hello" 0 9 chatT [inpW] rfl).1 rfl
  obtain ⟨cd', hg, hth⟩ := h.2
  refine ⟨rfl, rfl, h.1, ?_⟩
  rw [hg, Option.map_some', hth]
  rfl

end POC
